import Mathlib

/-!
Shallow embedding of the brake-disc simulation repository:
the reusable driver `run_single_simulation` from
`test_run_vanes/test run_10 instance/simulation_runner.py`, and the
module-level single-instance test script
`test_run_vanes/test run_single instance/ansys_test_run_vanes - Copy.py`.

External effects (directory creation, solver launch, every MAPDL
command, value queries, image rendering, timestamps, the working
directory) are mediated by an `Env` record: `raiseAt` designates the
index of the external call, if any, that raises an exception;
`getValueResult` is the value produced by the maximum-temperature
query; `elemCount` the value produced by the element-count query of the
test script; `pathExists` the filesystem answer for `os.path.exists`;
`now` the formatted timestamp; `cwd` the current working directory.
Each script is modelled as a function from `Env` and its Python
arguments to its outcome (returned record, or propagated exception)
paired with the trace of external calls issued, in order.  A call that
raises is still recorded on the trace as attempted.  Console printing
is not modelled (it is not observable by any claim).
-/

/-- A Python float that is either the not-a-number sentinel or an
ordinary number (modelled as a rational). -/
inductive Val where
  | nan : Val
  | num (q : ℚ) : Val
deriving DecidableEq

/-- Model of `np.isnan` on `Val`. -/
def np_isnan : Val → Bool
  | .nan => true
  | .num _ => false

/-- A propagated Python exception: a `KeyError` from a missing
dictionary key, or an exception raised by the external call with the
given trace index. -/
inductive Exc where
  | keyError (key : String) : Exc
  | externalError (idx : ℕ) : Exc
deriving DecidableEq

/-- One external call issued by the scripts.  Constructors are named
after the Python calls; arguments are retained only where a claim
refers to them (image paths, the applied heat flux, launch location). -/
inductive Cmd where
  | makedirs (path : String)
  | launch (runLocation jobname : String)
  | clear
  | prep7
  | mp
  | et
  | cyl4
  | asba
  | k
  | l
  | larc
  | al
  | aglue
  | smrtsize
  | amesh
  | eplot (savefig : String)
  | finish
  | slashsolu
  | antype
  | tunif
  | lsel
  | sfl
  | allsel
  | local_
  | csys
  | nsel
  | esln
  | sfe (heat_flux : ℚ)
  | sfedele
  | time
  | nsubst
  | kbc
  | outres
  | solve
  | post1
  | set_
  | nsort
  | getValue
  | getValueElemCount
  | plotNodalTemperature (savefig : String)
  | exit_
deriving DecidableEq

/-- The trace of external calls issued so far, in order. -/
abbrev Trace := List Cmd

/-- The character of a decimal digit. -/
def digitChar (d : ℕ) : Char := Char.ofNat (48 + d)

/-- The character data of the Python 04d format of a nonnegative
integer: the decimal digits, left-padded with zeros to width 4. -/
def fmt04Data (n : ℕ) : List Char :=
  let ds := ((Nat.digits 10 n).map digitChar).reverse
  List.replicate (4 - ds.length) '0' ++ ds

/-- Python 04d formatting of a nonnegative integer as a string. -/
def fmt04 (n : ℕ) : String := ⟨fmt04Data n⟩

/-- Model of os.path.join in the case the scripts exercise (POSIX
separator, relative second component). -/
def pathJoin (a b : String) : String := a ++ "/" ++ b

/-- simulation_runner.py line 18: the per-run directory name, run_
followed by the 04d-formatted run id. -/
def simulation_dir_name (run_id : ℕ) : String := "run_" ++ fmt04 run_id

/-- simulation_runner.py line 19: the per-run working directory. -/
def simulation_path (base_run_dir : String) (run_id : ℕ) : String :=
  pathJoin base_run_dir (simulation_dir_name run_id)

/-- simulation_runner.py line 70: the input-image path — input_, the
04d-formatted run id, and .png — under the final image directory. -/
def input_png_path (final_image_dir : String) (run_id : ℕ) : String :=
  pathJoin final_image_dir ("input_" ++ fmt04 run_id ++ ".png")

/-- simulation_runner.py line 99: the output-image path — output_,
the 04d-formatted run id, and .png — under the final image
directory. -/
def output_png_path (final_image_dir : String) (run_id : ℕ) : String :=
  pathJoin final_image_dir ("output_" ++ fmt04 run_id ++ ".png")

/-- The behaviour of everything external to the scripts. -/
structure Env where
  pathExists : String → Bool
  raiseAt : Option ℕ
  getValueResult : Val
  elemCount : ℚ
  now : String
  cwd : String

/-- Issue one external call: the call is recorded on the trace and
raises exactly when its index is the designated raising index of the
environment. -/
def step (env : Env) (c : Cmd) (t : Trace) : Except (Exc × Trace) Trace :=
  if env.raiseAt = some t.length then .error (.externalError t.length, t ++ [c])
  else .ok (t ++ [c])

/-- Issue a list of external calls in order, stopping at the first
raise. -/
def stepMany (env : Env) (cs : List Cmd) (t : Trace) : Except (Exc × Trace) Trace :=
  match cs with
  | [] => .ok t
  | c :: cs' =>
    match step env c t with
    | .error e => .error e
    | .ok t1 => stepMany env cs' t1

/-- simulation_runner.py line 97: `mapdl.get_value` for the sorted
maximum nodal temperature; returns the environment-chosen value. -/
def stepGetValue (env : Env) (t : Trace) : Except (Exc × Trace) (Val × Trace) :=
  if env.raiseAt = some t.length then .error (.externalError t.length, t ++ [.getValue])
  else .ok (env.getValueResult, t ++ [.getValue])

/-- Test script line 135: `mapdl.get_value("ELEM", 0, "COUNT")`. -/
def stepElemCount (env : Env) (t : Trace) : Except (Exc × Trace) (ℚ × Trace) :=
  if env.raiseAt = some t.length then .error (.externalError t.length, t ++ [.getValueElemCount])
  else .ok (env.elemCount, t ++ [.getValueElemCount])

/-- A Python dict with string keys and float values, as passed for
`params`. -/
abbrev PyDict := List (String × ℚ)

/-- Python `d[k]`: `some` value when present, `none` standing for the
raised `KeyError` when absent. -/
def dictGet (d : PyDict) (k : String) : Option ℚ := d.lookup k

/-- simulation_runner.py lines 57-65 (identical to test script lines
76-93): the 11 external calls of one iteration of the vane loop — four
keypoints, then, in Python evaluation order, line, centre keypoint,
outer arc, line, centre keypoint, inner arc, and finally the area from
the four edges. -/
def vaneIterCmds : List Cmd := [.k, .k, .k, .k, .l, .k, .larc, .l, .k, .larc, .al]

/-- simulation_runner.py lines 48-67 (identical to test script lines
57-100): the model-construction calls for a given vane count —
material properties, element type, the two rings by circle/subtract,
the vane loop, glue, smart sizing, mesh. -/
def modelCmds (vane_count : ℕ) : List Cmd :=
  [.clear, .prep7, .mp, .mp, .mp, .et, .cyl4, .cyl4, .asba, .cyl4, .cyl4, .asba]
    ++ (List.replicate vane_count vaneIterCmds).flatten
    ++ [.aglue, .smrtsize, .amesh]

/-- simulation_runner.py lines 75-81 (identical to test script lines
114-132): solution-phase calls up to and including the element
selection for the heat flux. -/
def solutionSelectCmds : List Cmd :=
  [.finish, .slashsolu, .antype, .tunif, .lsel, .sfl, .allsel,
   .local_, .csys, .nsel, .esln]

/-- simulation_runner.py lines 82-90 (identical to test script lines
142-171): heat-flux application, first transient solve, load removal
on the reselected elements, second transient solve. -/
def solveTailCmds (heat_flux : ℚ) : List Cmd :=
  [.sfe heat_flux, .csys, .allsel, .time, .nsubst, .kbc, .outres, .solve,
   .csys, .nsel, .esln, .sfedele, .csys, .allsel, .time, .nsubst, .solve]

/-- simulation_runner.py lines 75-90: the full solution phase of the
reusable driver; unlike the test script it has no element-count guard
between the selection and the heat-flux application. -/
def solveCmds (heat_flux : ℚ) : List Cmd :=
  solutionSelectCmds ++ solveTailCmds heat_flux

/-- simulation_runner.py lines 94-102: the guarded post-processing
block.  `peak_temperature` starts as nan; the sort and the extraction
may raise (leaving it nan); the temperature plot may raise after the
extraction already succeeded (leaving the extracted value in place).
Returns the final `peak_temperature` and the trace. -/
def postProcessTry (env : Env) (run_id : ℕ) (final_image_dir : String) (t : Trace) :
    Val × Trace :=
  match step env .nsort t with
  | .error (_, t1) => (.nan, t1)
  | .ok t1 =>
    match stepGetValue env t1 with
    | .error (_, t2) => (.nan, t2)
    | .ok (v, t2) =>
      match step env (.plotNodalTemperature (output_png_path final_image_dir run_id)) t2 with
      | .error (_, t3) => (v, t3)
      | .ok t3 => (v, t3)

/-- The dictionary returned by `run_single_simulation`; a key absent
from the returned dict is `none` (the launch-failure return at line 30
omits `run_id`). -/
structure ResultRecord where
  run_id : Option ℕ
  peak_temp : Val
  status : String
  timestamp : String
deriving DecidableEq

/-- Normal return of a record, or a propagated exception. -/
inductive Outcome where
  | ret (r : ResultRecord)
  | raised (e : Exc)
deriving DecidableEq

/-- simulation_runner.py lines 104-113, section 7: solver shutdown
(`mapdl.exit()`, uncaught if it raises) and the final record, whose
status is `success` exactly when the extracted peak is not nan. -/
def finishAndReturn (env : Env) (run_id : ℕ) (pr : Val × Trace) : Outcome × Trace :=
  match step env .exit_ pr.2 with
  | .error (e, t) => (.raised e, t)
  | .ok t7 =>
    (.ret { run_id := some run_id, peak_temp := pr.1,
            status := if np_isnan pr.1 then "post_processing_failed" else "success",
            timestamp := env.now }, t7)

/-- simulation_runner.py lines 74-113, sections 5-7: the solution
phase, the post-processing prologue (`finish`, `post1`, `set` — all
outside the guarded block), the guarded post-processing block, and the
finish section.  Exceptions outside the guarded block propagate. -/
def solveAndPost (env : Env) (run_id : ℕ) (final_image_dir : String)
    (heat_flux : ℚ) (t4 : Trace) : Outcome × Trace :=
  match stepMany env (solveCmds heat_flux) t4 with
  | .error (e, t) => (.raised e, t)
  | .ok t5 =>
    match stepMany env [.finish, .post1, .set_] t5 with
    | .error (e, t) => (.raised e, t)
    | .ok t6 => finishAndReturn env run_id (postProcessTry env run_id final_image_dir t6)

/-- simulation_runner.py lines 32-113, sections 3-7: the three
parameter reads (an uncaught `KeyError` propagates when a key is
missing), model construction, the best-effort geometry render (its
failure swallowed), then the rest.  `vane_count` is an integer in
every caller; Python `range(vane_count)` is modelled by taking the
floor. -/
def paramsAndRest (env : Env) (run_id : ℕ) (params : PyDict)
    (final_image_dir : String) (t2 : Trace) : Outcome × Trace :=
  match dictGet params "vane_count" with
  | none => (.raised (.keyError "vane_count"), t2)
  | some vane_count =>
    match dictGet params "vane_thickness_deg" with
    | none => (.raised (.keyError "vane_thickness_deg"), t2)
    | some _vane_thickness_deg =>
      match dictGet params "heat_flux" with
      | none => (.raised (.keyError "heat_flux"), t2)
      | some heat_flux =>
        match stepMany env (modelCmds (Int.toNat ⌊vane_count⌋)) t2 with
        | .error (e, t) => (.raised e, t)
        | .ok t3 =>
          let t4 :=
            match step env (.eplot (input_png_path final_image_dir run_id)) t3 with
            | .error (_, t) => t
            | .ok t => t
          solveAndPost env run_id final_image_dir heat_flux t4

/-- simulation_runner.py lines 9-113, `run_single_simulation`:
directory setup (sections 1), guarded launch with the early
`launch_failed` return — a dict without a `run_id` key — on failure
(section 2), then sections 3-7 via `paramsAndRest`. -/
def run_single_simulation (env : Env) (run_id : ℕ) (params : PyDict)
    (base_run_dir final_image_dir : String) : Outcome × Trace :=
  match (if env.pathExists (simulation_path base_run_dir run_id) then .ok []
         else step env (.makedirs (simulation_path base_run_dir run_id)) [] :
         Except (Exc × Trace) Trace) with
  | .error (e, t) => (.raised e, t)
  | .ok t1 =>
    match step env (.launch (simulation_path base_run_dir run_id) "disc_model") t1 with
    | .error (_, t) =>
      (.ret { run_id := none, peak_temp := .nan, status := "launch_failed",
              timestamp := env.now }, t)
    | .ok t2 => paramsAndRest env run_id params final_image_dir t2

/-- Outcome of the module-level single-instance test script: ran to the
end, stopped through the Python builtin `exit()` in the launch guard,
or died with a propagated exception. -/
inductive ScriptOutcome where
  | finished
  | systemExited
  | raised (e : Exc)
deriving DecidableEq

/-- Test script line 46: the fixed heat flux `9e6`. -/
def single_heat_flux : ℚ := 9000000

/-- Test script line 36: the fixed vane count. -/
def single_vane_count : ℕ := 48

/-- Test script `ansys_test_run_vanes - Copy.py`, module level:
directory setup, launch guard (Python `exit()` on failure), the same
model construction as the driver, best-effort geometry render, the
solution phase with the element-count guard — when the count is zero
the script prints a FATAL message and calls `mapdl.exit()`, then FALLS
THROUGH to the heat-flux application and the rest of the script — the
two solves, post-processing, best-effort temperature render, and the
final `mapdl.exit()`. -/
def single_instance_script (env : Env) : ScriptOutcome × Trace :=
  let sp := pathJoin env.cwd "vaned_disc_test_run"
  let afterMk : Except (Exc × Trace) Trace :=
    if env.pathExists sp then .ok [] else step env (.makedirs sp) []
  match afterMk with
  | .error (e, t) => (.raised e, t)
  | .ok t1 =>
    match step env (.launch sp "disc_model") t1 with
    | .error (_, t) => (.systemExited, t)
    | .ok t2 =>
      match stepMany env (modelCmds single_vane_count) t2 with
      | .error (e, t) => (.raised e, t)
      | .ok t3 =>
        let t4 :=
          match step env (.eplot (pathJoin env.cwd "input_geometry_vaned.png")) t3 with
          | .error (_, t) => t
          | .ok t => t
        match stepMany env solutionSelectCmds t4 with
        | .error (e, t) => (.raised e, t)
        | .ok t5 =>
          match stepElemCount env t5 with
          | .error (e, t) => (.raised e, t)
          | .ok (elem_count, t6) =>
            let afterGuard : Except (Exc × Trace) Trace :=
              if elem_count = 0 then step env .exit_ t6 else .ok t6
            match afterGuard with
            | .error (e, t) => (.raised e, t)
            | .ok t7 =>
              match stepMany env (solveTailCmds single_heat_flux) t7 with
              | .error (e, t) => (.raised e, t)
              | .ok t8 =>
                match stepMany env [.finish, .post1, .set_] t8 with
                | .error (e, t) => (.raised e, t)
                | .ok t9 =>
                  let t10 :=
                    match step env (.plotNodalTemperature
                        (pathJoin env.cwd "output_temperature_vaned.png")) t9 with
                    | .error (_, t) => t
                    | .ok t => t
                  match step env .exit_ t10 with
                  | .error (e, t) => (.raised e, t)
                  | .ok t11 => (.finished, t11)

/-! ### Basic lemmas about the external-call machinery -/

theorem step_ok {env : Env} {t : Trace} (c : Cmd) (h : env.raiseAt ≠ some t.length) :
    step env c t = .ok (t ++ [c]) := by
  simp [step, h]

theorem step_none {env : Env} (h : env.raiseAt = none) (c : Cmd) (t : Trace) :
    step env c t = .ok (t ++ [c]) := by
  simp [step, h]

theorem step_hit {env : Env} {t : Trace} (h : env.raiseAt = some t.length) (c : Cmd) :
    step env c t = .error (.externalError t.length, t ++ [c]) := by
  simp [step, h]

theorem stepGetValue_none {env : Env} (h : env.raiseAt = none) (t : Trace) :
    stepGetValue env t = .ok (env.getValueResult, t ++ [.getValue]) := by
  simp [stepGetValue, h]

theorem stepGetValue_ok {env : Env} {t : Trace} (h : env.raiseAt ≠ some t.length) :
    stepGetValue env t = .ok (env.getValueResult, t ++ [.getValue]) := by
  simp [stepGetValue, h]

theorem stepGetValue_hit {env : Env} {t : Trace} (h : env.raiseAt = some t.length) :
    stepGetValue env t = .error (.externalError t.length, t ++ [.getValue]) := by
  simp [stepGetValue, h]

theorem stepElemCount_none {env : Env} (h : env.raiseAt = none) (t : Trace) :
    stepElemCount env t = .ok (env.elemCount, t ++ [.getValueElemCount]) := by
  simp [stepElemCount, h]

theorem stepMany_none {env : Env} (h : env.raiseAt = none) :
    ∀ (cs : List Cmd) (t : Trace), stepMany env cs t = .ok (t ++ cs) := by
  intro cs
  induction cs with
  | nil => intro t; simp [stepMany]
  | cons c cs ih =>
    intro t
    rw [stepMany, step_none h]
    show stepMany env cs (t ++ [c]) = _
    rw [ih]
    simp

theorem stepMany_avoid {env : Env} {m : ℕ} (h : env.raiseAt = some m) :
    ∀ (cs : List Cmd) (t : Trace), m < t.length ∨ t.length + cs.length ≤ m →
      stepMany env cs t = .ok (t ++ cs) := by
  intro cs
  induction cs with
  | nil => intro t _; simp [stepMany]
  | cons c cs ih =>
    intro t hm
    have hlen : (c :: cs).length = cs.length + 1 := by simp
    have hne : env.raiseAt ≠ some t.length := by
      rw [h]
      intro hc
      injection hc with hc
      rw [hlen] at hm
      omega
    have h' : m < (t ++ [c]).length ∨ (t ++ [c]).length + cs.length ≤ m := by
      rw [hlen] at hm
      simp only [List.length_append, List.length_cons, List.length_nil]
      omega
    rw [stepMany, step_ok c hne]
    show stepMany env cs (t ++ [c]) = _
    rw [ih _ h']
    simp

theorem modelCmds_length (n : ℕ) : (modelCmds n).length = 15 + 11 * n := by
  simp [modelCmds, vaneIterCmds, List.length_flatten, List.map_replicate,
    List.sum_replicate, smul_eq_mul]
  omega

/-! ### Injectivity of the run-id formatting and of the derived paths -/

/-- Computable inverse of the zero-padded decimal format: strip leading
zero characters, read the remaining characters as digits. -/
def unfmt (l : List Char) : ℕ :=
  Nat.ofDigits 10 (((l.dropWhile (· == '0')).map (fun c => c.toNat - 48)).reverse)

theorem dropWhile_zero_pad (k : ℕ) (l : List Char) :
    List.dropWhile (· == '0') (List.replicate k '0' ++ l) = List.dropWhile (· == '0') l := by
  induction k with
  | zero => simp
  | succ k ih => simp [List.replicate_succ, List.dropWhile_cons, ih]

theorem digitChar_toNat {d : ℕ} (hd : d < 10) : (digitChar d).toNat - 48 = d := by
  interval_cases d <;> decide

theorem digitChar_ne_zero {d : ℕ} (hd : d < 10) (h0 : d ≠ 0) : (digitChar d == '0') = false := by
  interval_cases d
  · exact absurd rfl h0
  all_goals decide

theorem map_digitChar_roundtrip : ∀ (l : List ℕ), (∀ d ∈ l, d < 10) →
    (l.map digitChar).map (fun c => c.toNat - 48) = l := by
  intro l hl
  induction l with
  | nil => simp
  | cons d l ih =>
    have hd : d < 10 := hl d (List.mem_cons_self d l)
    have hrest : ∀ x ∈ l, x < 10 := fun x hx => hl x (List.mem_cons_of_mem d hx)
    simp [digitChar_toNat hd, ih hrest]

theorem unfmt_fmt04Data (n : ℕ) : unfmt (fmt04Data n) = n := by
  by_cases hn : n = 0
  · subst hn
    have h1 : fmt04Data 0 = List.replicate 4 '0' ++ [] := by simp [fmt04Data]
    rw [unfmt, h1, dropWhile_zero_pad]
    simp [Nat.ofDigits_nil]
  · have hD : Nat.digits 10 n ≠ [] := Nat.digits_ne_nil_iff_ne_zero.mpr hn
    obtain hnil | ⟨L, b, hLb⟩ := (Nat.digits 10 n).eq_nil_or_concat
    · exact absurd hnil hD
    rw [List.concat_eq_append] at hLb
    have hmem : ∀ d ∈ Nat.digits 10 n, d < 10 :=
      fun d hd => Nat.digits_lt_base (by norm_num) hd
    have hb10 : b < 10 := hmem b (by rw [hLb]; simp)
    have hLmem : ∀ d ∈ L, d < 10 :=
      fun d hd => hmem d (by rw [hLb]; exact List.mem_append_left _ hd)
    have hb0 : b ≠ 0 := by
      have hlast := Nat.getLast_digit_ne_zero 10 hn
      have hcongr : (Nat.digits 10 n).getLast hD = (L ++ [b]).getLast (by simp) :=
        List.getLast_congr _ _ hLb
      rw [hcongr, List.getLast_concat] at hlast
      exact hlast
    have hds : ((Nat.digits 10 n).map digitChar).reverse
        = digitChar b :: (L.map digitChar).reverse := by
      rw [hLb]; simp
    rw [unfmt]
    simp only [fmt04Data]
    rw [hds, dropWhile_zero_pad, List.dropWhile_cons, digitChar_ne_zero hb10 hb0]
    simp only [Bool.false_eq_true, if_false, List.map_cons]
    rw [digitChar_toNat hb10, ← List.map_reverse,
      map_digitChar_roundtrip L.reverse (fun d hd => hLmem d (List.mem_reverse.mp hd))]
    rw [List.reverse_cons, List.reverse_reverse, ← hLb]
    exact Nat.ofDigits_digits 10 n

theorem fmt04Data_inj {m n : ℕ} (h : fmt04Data m = fmt04Data n) : m = n := by
  have := congrArg unfmt h
  rwa [unfmt_fmt04Data, unfmt_fmt04Data] at this

theorem fmt04_inj {m n : ℕ} (h : fmt04 m = fmt04 n) : m = n :=
  fmt04Data_inj (congrArg String.data h)

theorem strData_append (s t : String) : (s ++ t).data = s.data ++ t.data := rfl

theorem fmt04_data (n : ℕ) : (fmt04 n).data = fmt04Data n := rfl

theorem simulation_path_inj {b : String} {m n : ℕ}
    (h : simulation_path b m = simulation_path b n) : m = n := by
  have hd := congrArg String.data h
  simp only [simulation_path, pathJoin, simulation_dir_name, strData_append, fmt04_data,
    List.append_assoc] at hd
  exact fmt04Data_inj
    (List.append_cancel_left (List.append_cancel_left (List.append_cancel_left hd)))

theorem input_png_path_inj {i : String} {m n : ℕ}
    (h : input_png_path i m = input_png_path i n) : m = n := by
  have hd := congrArg String.data h
  simp only [input_png_path, pathJoin, strData_append, fmt04_data, List.append_assoc] at hd
  exact fmt04Data_inj (List.append_cancel_right
    (List.append_cancel_left (List.append_cancel_left (List.append_cancel_left hd))))

theorem output_png_path_inj {i : String} {m n : ℕ}
    (h : output_png_path i m = output_png_path i n) : m = n := by
  have hd := congrArg String.data h
  simp only [output_png_path, pathJoin, strData_append, fmt04_data, List.append_assoc] at hd
  exact fmt04Data_inj (List.append_cancel_right
    (List.append_cancel_left (List.append_cancel_left (List.append_cancel_left hd))))

theorem input_png_path_ne_output (i j : String) (m n : ℕ)
    (hij : i = j) : input_png_path i m ≠ output_png_path j n := by
  subst hij
  intro h
  have hd := congrArg String.data h
  simp only [input_png_path, output_png_path, pathJoin, strData_append, fmt04_data,
    List.append_assoc] at hd
  have h2 := List.append_cancel_left (List.append_cancel_left hd)
  simp only [List.cons_append] at h2
  injection h2 with h5 _
  exact absurd h5 (by decide)

/-! ### Structural case analysis of the returned record -/

theorem step_ok_inv {env : Env} {c : Cmd} {t u : Trace} (h : step env c t = .ok u) :
    u = t ++ [c] := by
  unfold step at h
  split at h
  · simp at h
  · injection h with h
    exact h.symm

theorem finishAndReturn_cases {env : Env} {rid : ℕ} {pr : Val × Trace}
    {r : ResultRecord} {t : Trace} (h : finishAndReturn env rid pr = (.ret r, t)) :
    r = ⟨some rid, pr.1,
        if np_isnan pr.1 then "post_processing_failed" else "success", env.now⟩ ∧
      Cmd.exit_ ∈ t := by
  unfold finishAndReturn at h
  split at h
  · simp at h
  · rename_i t7 heq
    have ht7 := step_ok_inv heq
    injection h with h1 h2
    injection h1 with h1
    subst h2
    subst ht7
    exact ⟨h1.symm, by simp⟩

theorem solveAndPost_cases {env : Env} {rid : ℕ} {i : String} {hf : ℚ}
    {t4 : Trace} {r : ResultRecord} {t : Trace}
    (h : solveAndPost env rid i hf t4 = (.ret r, t)) :
    ∃ peak, r = ⟨some rid, peak,
        if np_isnan peak then "post_processing_failed" else "success", env.now⟩ ∧
      Cmd.exit_ ∈ t := by
  unfold solveAndPost at h
  split at h
  · simp at h
  · split at h
    · simp at h
    · exact ⟨_, finishAndReturn_cases h⟩

theorem paramsAndRest_cases {env : Env} {rid : ℕ} {p : PyDict} {i : String}
    {t2 : Trace} {r : ResultRecord} {t : Trace}
    (h : paramsAndRest env rid p i t2 = (.ret r, t)) :
    ∃ peak, r = ⟨some rid, peak,
        if np_isnan peak then "post_processing_failed" else "success", env.now⟩ ∧
      Cmd.exit_ ∈ t := by
  unfold paramsAndRest at h
  split at h
  · simp at h
  · split at h
    · simp at h
    · split at h
      · simp at h
      · split at h
        · simp at h
        · exact solveAndPost_cases h

theorem run_ret_cases {env : Env} {rid : ℕ} {p : PyDict} {b i : String}
    {r : ResultRecord} {t : Trace}
    (h : run_single_simulation env rid p b i = (.ret r, t)) :
    r = ⟨none, .nan, "launch_failed", env.now⟩ ∨
      ∃ peak, r = ⟨some rid, peak,
          if np_isnan peak then "post_processing_failed" else "success", env.now⟩ ∧
        Cmd.exit_ ∈ t := by
  unfold run_single_simulation at h
  split at h
  · simp at h
  · split at h
    · left
      injection h with h1 h2
      injection h1 with h1
      exact h1.symm
    · right
      exact paramsAndRest_cases h

/-! ### Reduction lemmas for runs in which no external call raises -/

theorem postProcessTry_none {env : Env} (h : env.raiseAt = none) (rid : ℕ) (i : String)
    (t : Trace) :
    postProcessTry env rid i t =
      (env.getValueResult,
       t ++ [.nsort, .getValue, .plotNodalTemperature (output_png_path i rid)]) := by
  simp only [postProcessTry, step_none h, stepGetValue_none h]
  simp

theorem run_no_raise {env : Env} {rid : ℕ} {p : PyDict} {b i : String} {vc td hf : ℚ}
    (h1 : dictGet p "vane_count" = some vc)
    (h2 : dictGet p "vane_thickness_deg" = some td)
    (h3 : dictGet p "heat_flux" = some hf)
    (hr : env.raiseAt = none) :
    (run_single_simulation env rid p b i).1 =
      .ret ⟨some rid, env.getValueResult,
        if np_isnan env.getValueResult then "post_processing_failed" else "success",
        env.now⟩ := by
  by_cases hpe : env.pathExists (simulation_path b rid) = true
  · simp only [run_single_simulation, hpe, if_true, paramsAndRest, solveAndPost,
      finishAndReturn, h1, h2, h3, step_none hr, stepMany_none hr, postProcessTry_none hr]
  · simp only [run_single_simulation, hpe, if_false, paramsAndRest, solveAndPost,
      finishAndReturn, h1, h2, h3, step_none hr, stepMany_none hr, postProcessTry_none hr]
    simp

theorem solveCmds_length (hf : ℚ) : (solveCmds hf).length = 28 := rfl

theorem run_launch_fail {env : Env} {rid : ℕ} (p : PyDict) {b i : String}
    (hl : env.raiseAt = some (if env.pathExists (simulation_path b rid) = true then 0 else 1)) :
    run_single_simulation env rid p b i =
      (.ret ⟨none, .nan, "launch_failed", env.now⟩,
       (if env.pathExists (simulation_path b rid) = true then ([] : Trace)
        else [.makedirs (simulation_path b rid)]) ++
         [.launch (simulation_path b rid) "disc_model"]) := by
  by_cases hpe : env.pathExists (simulation_path b rid) = true
  · rw [if_pos hpe] at hl
    have h0 : env.raiseAt = some ([] : Trace).length := by simpa using hl
    simp [run_single_simulation, hpe, step_hit h0]
  · rw [if_neg hpe] at hl
    have h0 : env.raiseAt ≠ some ([] : Trace).length := by rw [hl]; simp
    have h1 : env.raiseAt = some ([Cmd.makedirs (simulation_path b rid)] : Trace).length := by
      simpa using hl
    simp [run_single_simulation, hpe, step_ok _ h0, step_hit h1]

theorem run_missing_vane {env : Env} {rid : ℕ} {p : PyDict} {b i : String}
    (hr : env.raiseAt = none) (h1 : dictGet p "vane_count" = none) :
    run_single_simulation env rid p b i =
      (.raised (.keyError "vane_count"),
       (if env.pathExists (simulation_path b rid) = true then ([] : Trace)
        else [.makedirs (simulation_path b rid)]) ++
         [.launch (simulation_path b rid) "disc_model"]) := by
  by_cases hpe : env.pathExists (simulation_path b rid) = true <;>
    simp [run_single_simulation, hpe, step_none hr, paramsAndRest, h1]

theorem run_missing_thickness {env : Env} {rid : ℕ} {p : PyDict} {b i : String} {vc : ℚ}
    (hr : env.raiseAt = none) (h1 : dictGet p "vane_count" = some vc)
    (h2 : dictGet p "vane_thickness_deg" = none) :
    run_single_simulation env rid p b i =
      (.raised (.keyError "vane_thickness_deg"),
       (if env.pathExists (simulation_path b rid) = true then ([] : Trace)
        else [.makedirs (simulation_path b rid)]) ++
         [.launch (simulation_path b rid) "disc_model"]) := by
  by_cases hpe : env.pathExists (simulation_path b rid) = true <;>
    simp [run_single_simulation, hpe, step_none hr, paramsAndRest, h1, h2]

theorem run_missing_flux {env : Env} {rid : ℕ} {p : PyDict} {b i : String} {vc td : ℚ}
    (hr : env.raiseAt = none) (h1 : dictGet p "vane_count" = some vc)
    (h2 : dictGet p "vane_thickness_deg" = some td)
    (h3 : dictGet p "heat_flux" = none) :
    run_single_simulation env rid p b i =
      (.raised (.keyError "heat_flux"),
       (if env.pathExists (simulation_path b rid) = true then ([] : Trace)
        else [.makedirs (simulation_path b rid)]) ++
         [.launch (simulation_path b rid) "disc_model"]) := by
  by_cases hpe : env.pathExists (simulation_path b rid) = true <;>
    simp [run_single_simulation, hpe, step_none hr, paramsAndRest, h1, h2, h3]

theorem postProcessTry_avoid {env : Env} {m : ℕ} (hm : env.raiseAt = some m) {t : Trace}
    (hlt : m < t.length) (rid : ℕ) (i : String) :
    postProcessTry env rid i t =
      (env.getValueResult,
       t ++ [.nsort, .getValue, .plotNodalTemperature (output_png_path i rid)]) := by
  have h1 : env.raiseAt ≠ some t.length := by rw [hm]; intro hc; injection hc with hc; omega
  have h2 : env.raiseAt ≠ some ((t ++ [Cmd.nsort]) : Trace).length := by
    rw [hm]; intro hc; injection hc with hc; simp at hc; omega
  have h3 : env.raiseAt ≠ some ((t ++ [Cmd.nsort] ++ [Cmd.getValue]) : Trace).length := by
    rw [hm]; intro hc; injection hc with hc; simp at hc; omega
  simp only [postProcessTry, step_ok _ h1, stepGetValue_ok h2, step_ok _ h3]
  simp

theorem finishAndReturn_avoid {env : Env} {m : ℕ} (hm : env.raiseAt = some m) {rid : ℕ}
    {v : Val} {tt : Trace} (hlt : m < tt.length) :
    finishAndReturn env rid (v, tt) =
      (.ret ⟨some rid, v, if np_isnan v then "post_processing_failed" else "success",
        env.now⟩, tt ++ [.exit_]) := by
  have h1 : env.raiseAt ≠ some tt.length := by rw [hm]; intro hc; injection hc with hc; omega
  simp [finishAndReturn, step_ok _ h1]

theorem run_to_post {env : Env} {rid : ℕ} {p : PyDict} {b i : String} {vc td hf : ℚ}
    {nv m : ℕ}
    (hvc : dictGet p "vane_count" = some vc)
    (htd : dictGet p "vane_thickness_deg" = some td)
    (hhf : dictGet p "heat_flux" = some hf)
    (hnv : Int.toNat ⌊vc⌋ = nv)
    (hpe : env.pathExists (simulation_path b rid) = true)
    (hm : env.raiseAt = some m)
    (hge : 45 + 11 * nv ≤ m) :
    run_single_simulation env rid p b i =
      (match stepMany env [Cmd.finish, Cmd.post1, Cmd.set_]
          ((Cmd.launch (simulation_path b rid) "disc_model" ::
            (modelCmds nv ++ Cmd.eplot (input_png_path i rid) :: solveCmds hf)) : Trace) with
       | .error (e, t) => (.raised e, t)
       | .ok t6 => finishAndReturn env rid (postProcessTry env rid i t6)) := by
  have h0 : env.raiseAt ≠ some ([] : Trace).length := by
    rw [hm]; intro hc; injection hc with hc; simp at hc; omega
  have hmodel := stepMany_avoid hm (modelCmds nv)
    [Cmd.launch (simulation_path b rid) "disc_model"]
    (by right; simp [modelCmds_length]; omega)
  have heplot : env.raiseAt ≠
      some (([Cmd.launch (simulation_path b rid) "disc_model"] ++ modelCmds nv) : Trace).length := by
    rw [hm]; intro hc; injection hc with hc; simp [modelCmds_length] at hc; omega
  have hsolve := stepMany_avoid hm (solveCmds hf)
    (([Cmd.launch (simulation_path b rid) "disc_model"] ++ modelCmds nv) ++
      [Cmd.eplot (input_png_path i rid)])
    (by right; simp [modelCmds_length, solveCmds_length]; omega)
  simp only [run_single_simulation, hpe, if_true, step_ok _ h0, List.nil_append,
    paramsAndRest, hvc, htd, hhf, hnv, hmodel, step_ok _ heplot, hsolve, solveAndPost]
  simp [List.append_assoc]

/-- C3: the claim says any post-processing exception yields status
post_processing_failed with peak_temp nan.  On the code (vane count 1,
per-run directory already present, so the guarded block occupies call
indices 59-61 and the result-state load is index 58): a raise in the
result-state load (`mapdl.set`, outside the try) propagates; a raise in
the sort (59) or the extraction (60) yields the
post_processing_failed/nan record; a raise in the temperature plot (61)
after a successful extraction keeps the extracted value and status
success. -/
theorem c3_guarded_post_processing (env : Env) (rid : ℕ) (p : PyDict) (b i : String)
    (td hf q : ℚ)
    (hvc : dictGet p "vane_count" = some 1)
    (htd : dictGet p "vane_thickness_deg" = some td)
    (hhf : dictGet p "heat_flux" = some hf)
    (hpe : env.pathExists (simulation_path b rid) = true) :
    (env.raiseAt = some 58 →
      (run_single_simulation env rid p b i).1 = .raised (.externalError 58)) ∧
    (env.raiseAt = some 59 →
      (run_single_simulation env rid p b i).1 =
        .ret ⟨some rid, Val.nan, "post_processing_failed", env.now⟩) ∧
    (env.raiseAt = some 60 →
      (run_single_simulation env rid p b i).1 =
        .ret ⟨some rid, Val.nan, "post_processing_failed", env.now⟩) ∧
    (env.raiseAt = some 61 → env.getValueResult = Val.num q →
      (run_single_simulation env rid p b i).1 =
        .ret ⟨some rid, Val.num q, "success", env.now⟩) := by
  have hnv : Int.toNat ⌊(1 : ℚ)⌋ = 1 := rfl
  set T : Trace := Cmd.launch (simulation_path b rid) "disc_model" ::
    (modelCmds 1 ++ Cmd.eplot (input_png_path i rid) :: solveCmds hf) with hTdef
  have hT : T.length = 56 := by
    simp [hTdef, modelCmds_length, solveCmds_length]
  have len57 : ((T ++ [Cmd.finish]) : Trace).length = 57 := by simp [hT]
  have len58 : ((T ++ [Cmd.finish] ++ [Cmd.post1]) : Trace).length = 58 := by simp [hT]
  have len59 : ((T ++ [Cmd.finish, Cmd.post1, Cmd.set_]) : Trace).length = 59 := by simp [hT]
  have len60 : ((T ++ [Cmd.finish, Cmd.post1, Cmd.set_] ++ [Cmd.nsort]) : Trace).length = 60 := by
    simp [hT]
  have len61 : ((T ++ [Cmd.finish, Cmd.post1, Cmd.set_] ++ [Cmd.nsort] ++ [Cmd.getValue]) :
      Trace).length = 61 := by simp [hT]
  have len62 : ((T ++ [Cmd.finish, Cmd.post1, Cmd.set_] ++ [Cmd.nsort] ++ [Cmd.getValue] ++
      [Cmd.plotNodalTemperature (output_png_path i rid)]) : Trace).length = 62 := by simp [hT]
  refine ⟨?_, ?_, ?_, ?_⟩
  · intro hm
    rw [run_to_post hvc htd hhf hnv hpe hm (by omega), ← hTdef]
    have e1 : env.raiseAt ≠ some T.length := by rw [hm, hT]; decide
    have e2 : env.raiseAt ≠ some ((T ++ [Cmd.finish]) : Trace).length := by
      rw [hm, len57]; decide
    have e3 : env.raiseAt = some ((T ++ [Cmd.finish] ++ [Cmd.post1]) : Trace).length := by
      rw [hm, len58]
    simp only [stepMany, step_ok _ e1, step_ok _ e2, step_hit e3]
    rw [len58]
  · intro hm
    rw [run_to_post hvc htd hhf hnv hpe hm (by omega), ← hTdef]
    have hpro := stepMany_avoid hm [Cmd.finish, Cmd.post1, Cmd.set_] T
      (by rw [hT]; right; simp)
    simp only [hpro]
    have e1 : env.raiseAt = some ((T ++ [Cmd.finish, Cmd.post1, Cmd.set_]) : Trace).length := by
      rw [hm, len59]
    simp only [postProcessTry, step_hit e1]
    rw [finishAndReturn_avoid hm (by rw [len60]; decide)]
    simp [np_isnan]
  · intro hm
    rw [run_to_post hvc htd hhf hnv hpe hm (by omega), ← hTdef]
    have hpro := stepMany_avoid hm [Cmd.finish, Cmd.post1, Cmd.set_] T
      (by rw [hT]; right; simp)
    simp only [hpro]
    have e1 : env.raiseAt ≠ some ((T ++ [Cmd.finish, Cmd.post1, Cmd.set_]) : Trace).length := by
      rw [hm, len59]; decide
    have e2 : env.raiseAt = some
        ((T ++ [Cmd.finish, Cmd.post1, Cmd.set_] ++ [Cmd.nsort]) : Trace).length := by
      rw [hm, len60]
    simp only [postProcessTry, step_ok _ e1, stepGetValue_hit e2]
    rw [finishAndReturn_avoid hm (by rw [len61]; decide)]
    simp [np_isnan]
  · intro hm hq
    rw [run_to_post hvc htd hhf hnv hpe hm (by omega), ← hTdef]
    have hpro := stepMany_avoid hm [Cmd.finish, Cmd.post1, Cmd.set_] T
      (by rw [hT]; right; simp)
    simp only [hpro]
    have e1 : env.raiseAt ≠ some ((T ++ [Cmd.finish, Cmd.post1, Cmd.set_]) : Trace).length := by
      rw [hm, len59]; decide
    have e2 : env.raiseAt ≠ some
        ((T ++ [Cmd.finish, Cmd.post1, Cmd.set_] ++ [Cmd.nsort]) : Trace).length := by
      rw [hm, len60]; decide
    have e3 : env.raiseAt = some
        ((T ++ [Cmd.finish, Cmd.post1, Cmd.set_] ++ [Cmd.nsort] ++ [Cmd.getValue]) :
          Trace).length := by
      rw [hm, len61]
    simp only [postProcessTry, step_ok _ e1, stepGetValue_ok e2, step_hit e3]
    rw [finishAndReturn_avoid hm (by rw [len62]; decide)]
    simp [np_isnan, hq]

theorem run_eplot_raise {env : Env} {rid : ℕ} {p : PyDict} {b i : String}
    {vc td hf : ℚ} {nv : ℕ}
    (hvc : dictGet p "vane_count" = some vc)
    (htd : dictGet p "vane_thickness_deg" = some td)
    (hhf : dictGet p "heat_flux" = some hf)
    (hnv : Int.toNat ⌊vc⌋ = nv)
    (hpe : env.pathExists (simulation_path b rid) = true)
    (hm : env.raiseAt = some (16 + 11 * nv)) :
    (run_single_simulation env rid p b i).1 =
      .ret ⟨some rid, env.getValueResult,
        if np_isnan env.getValueResult then "post_processing_failed" else "success",
        env.now⟩ := by
  have lenL : (([Cmd.launch (simulation_path b rid) "disc_model"] ++ modelCmds nv) :
      Trace).length = 16 + 11 * nv := by
    simp only [List.length_append, List.length_cons, List.length_nil, modelCmds_length]
    omega
  have lenT4 : ((([Cmd.launch (simulation_path b rid) "disc_model"] ++ modelCmds nv) ++
      [Cmd.eplot (input_png_path i rid)]) : Trace).length = 17 + 11 * nv := by
    simp only [List.length_append, List.length_cons, List.length_nil, modelCmds_length]
    omega
  have lenT5 : (((([Cmd.launch (simulation_path b rid) "disc_model"] ++ modelCmds nv) ++
      [Cmd.eplot (input_png_path i rid)]) ++ solveCmds hf) : Trace).length
      = 45 + 11 * nv := by
    simp only [List.length_append, List.length_cons, List.length_nil, modelCmds_length,
      solveCmds_length]
    omega
  have lenT6 : ((((([Cmd.launch (simulation_path b rid) "disc_model"] ++ modelCmds nv) ++
      [Cmd.eplot (input_png_path i rid)]) ++ solveCmds hf) ++
        [Cmd.finish, Cmd.post1, Cmd.set_]) : Trace).length = 48 + 11 * nv := by
    simp only [List.length_append, List.length_cons, List.length_nil, modelCmds_length,
      solveCmds_length]
    omega
  have h0 : env.raiseAt ≠ some ([] : Trace).length := by
    rw [hm]; simp only [List.length_nil, ne_eq, Option.some.injEq]; omega
  have hmodel := stepMany_avoid hm (modelCmds nv)
    [Cmd.launch (simulation_path b rid) "disc_model"]
    (by right
        simp only [List.length_append, List.length_cons, List.length_nil, modelCmds_length]
        omega)
  have heplx : env.raiseAt = some
      (([Cmd.launch (simulation_path b rid) "disc_model"] ++ modelCmds nv) : Trace).length := by
    rw [hm, lenL]
  have hsolve := stepMany_avoid hm (solveCmds hf)
    (([Cmd.launch (simulation_path b rid) "disc_model"] ++ modelCmds nv) ++
      [Cmd.eplot (input_png_path i rid)])
    (by left; rw [lenT4]; omega)
  have hpro := stepMany_avoid hm [Cmd.finish, Cmd.post1, Cmd.set_]
    ((([Cmd.launch (simulation_path b rid) "disc_model"] ++ modelCmds nv) ++
      [Cmd.eplot (input_png_path i rid)]) ++ solveCmds hf)
    (by left; rw [lenT5]; omega)
  simp only [run_single_simulation, hpe, if_true, step_ok _ h0, List.nil_append,
    paramsAndRest, hvc, htd, hhf, hnv, hmodel, step_hit heplx, solveAndPost, hsolve, hpro]
  rw [postProcessTry_avoid hm (by rw [lenT6]; omega) rid i,
    finishAndReturn_avoid hm
      (by simp only [List.length_append, List.length_cons, List.length_nil, lenT6]; omega)]

theorem run_plot_raise {env : Env} {rid : ℕ} {p : PyDict} {b i : String}
    {vc td hf : ℚ} {nv : ℕ}
    (hvc : dictGet p "vane_count" = some vc)
    (htd : dictGet p "vane_thickness_deg" = some td)
    (hhf : dictGet p "heat_flux" = some hf)
    (hnv : Int.toNat ⌊vc⌋ = nv)
    (hpe : env.pathExists (simulation_path b rid) = true)
    (hm : env.raiseAt = some (50 + 11 * nv)) :
    (run_single_simulation env rid p b i).1 =
      .ret ⟨some rid, env.getValueResult,
        if np_isnan env.getValueResult then "post_processing_failed" else "success",
        env.now⟩ := by
  rw [run_to_post hvc htd hhf hnv hpe hm (by omega)]
  have hT : ((Cmd.launch (simulation_path b rid) "disc_model" ::
      (modelCmds nv ++ Cmd.eplot (input_png_path i rid) :: solveCmds hf)) : Trace).length
      = 45 + 11 * nv := by
    simp only [List.length_append, List.length_cons, List.length_nil, modelCmds_length,
      solveCmds_length]
    omega
  have hpro := stepMany_avoid hm [Cmd.finish, Cmd.post1, Cmd.set_]
    (Cmd.launch (simulation_path b rid) "disc_model" ::
      (modelCmds nv ++ Cmd.eplot (input_png_path i rid) :: solveCmds hf))
    (by right; rw [hT]; simp only [List.length_cons, List.length_nil]; omega)
  simp only [hpro]
  have lenP0 : (((Cmd.launch (simulation_path b rid) "disc_model" ::
      (modelCmds nv ++ Cmd.eplot (input_png_path i rid) :: solveCmds hf)) ++
      [Cmd.finish, Cmd.post1, Cmd.set_] : Trace)).length = 48 + 11 * nv := by
    simp only [List.length_append, List.length_cons, List.length_nil, hT]
    omega
  have lenP1 : ((((Cmd.launch (simulation_path b rid) "disc_model" ::
      (modelCmds nv ++ Cmd.eplot (input_png_path i rid) :: solveCmds hf)) ++
      [Cmd.finish, Cmd.post1, Cmd.set_]) ++ [Cmd.nsort] : Trace)).length = 49 + 11 * nv := by
    simp only [List.length_append, List.length_cons, List.length_nil, hT]
    omega
  have lenP2 : (((((Cmd.launch (simulation_path b rid) "disc_model" ::
      (modelCmds nv ++ Cmd.eplot (input_png_path i rid) :: solveCmds hf)) ++
      [Cmd.finish, Cmd.post1, Cmd.set_]) ++ [Cmd.nsort]) ++ [Cmd.getValue] : Trace)).length
      = 50 + 11 * nv := by
    simp only [List.length_append, List.length_cons, List.length_nil, hT]
    omega
  have e1 : env.raiseAt ≠ some (((Cmd.launch (simulation_path b rid) "disc_model" ::
      (modelCmds nv ++ Cmd.eplot (input_png_path i rid) :: solveCmds hf)) ++
      [Cmd.finish, Cmd.post1, Cmd.set_] : Trace)).length := by
    rw [hm, lenP0]; simp only [ne_eq, Option.some.injEq]; omega
  have e2 : env.raiseAt ≠ some ((((Cmd.launch (simulation_path b rid) "disc_model" ::
      (modelCmds nv ++ Cmd.eplot (input_png_path i rid) :: solveCmds hf)) ++
      [Cmd.finish, Cmd.post1, Cmd.set_]) ++ [Cmd.nsort] : Trace)).length := by
    rw [hm, lenP1]; simp only [ne_eq, Option.some.injEq]; omega
  have e3 : env.raiseAt = some (((((Cmd.launch (simulation_path b rid) "disc_model" ::
      (modelCmds nv ++ Cmd.eplot (input_png_path i rid) :: solveCmds hf)) ++
      [Cmd.finish, Cmd.post1, Cmd.set_]) ++ [Cmd.nsort]) ++ [Cmd.getValue] : Trace)).length := by
    rw [hm, lenP2]
  simp only [postProcessTry, step_ok _ e1, stepGetValue_ok e2, step_hit e3]
  rw [finishAndReturn_avoid hm
    (by simp only [List.length_append, List.length_cons, List.length_nil, lenP2]; omega)]

theorem run_fst_ret_cases {env : Env} {rid : ℕ} {p : PyDict} {b i : String}
    {r : ResultRecord} (h : (run_single_simulation env rid p b i).1 = .ret r) :
    r = ⟨none, .nan, "launch_failed", env.now⟩ ∨
      ∃ peak, r = ⟨some rid, peak,
          if np_isnan peak then "post_processing_failed" else "success", env.now⟩ := by
  have h2 : run_single_simulation env rid p b i =
      (.ret r, (run_single_simulation env rid p b i).2) := by
    rw [← h]
  rcases run_ret_cases h2 with h3 | ⟨peak, h3, _⟩
  · exact Or.inl h3
  · exact Or.inr ⟨peak, h3⟩

/-! ### The claims -/

/-- C1: the claim says run_single_simulation never raises.
Counterexample: with every external call succeeding, a params dict
lacking the vane_count key makes the driver raise a KeyError (the
parameter reads at lines 34-36 are outside every try block) instead of
returning a record. -/
theorem c1_keyerror_escapes :
    (run_single_simulation
      { pathExists := fun _ => true, raiseAt := none, getValueResult := Val.num 500,
        elemCount := 1, now := "ts", cwd := "c" } 1 [] "base" "imgs").1
      = Outcome.raised (Exc.keyError "vane_count") := rfl

/-- C1 (amended): the launch failure is caught and converted to the
launch_failed status, and when no external call raises and the three
parameter keys are present the driver returns a record normally; other
failures (directory creation, parameter lookup, model construction,
solve, result-state load, shutdown) propagate as exceptions. -/
theorem c1_caught_failure_paths (env : Env) (rid : ℕ) (p : PyDict) (b i : String)
    (vc td hf : ℚ) :
    (env.raiseAt = some (if env.pathExists (simulation_path b rid) = true then 0 else 1) →
      (run_single_simulation env rid p b i).1 =
        .ret ⟨none, Val.nan, "launch_failed", env.now⟩) ∧
    (env.raiseAt = none → dictGet p "vane_count" = some vc →
      dictGet p "vane_thickness_deg" = some td → dictGet p "heat_flux" = some hf →
      (run_single_simulation env rid p b i).1 =
        .ret ⟨some rid, env.getValueResult,
          if np_isnan env.getValueResult then "post_processing_failed" else "success",
          env.now⟩) := by
  constructor
  · intro hl
    rw [run_launch_fail p hl]
  · intro hr h1 h2 h3
    exact run_no_raise h1 h2 h3 hr

/-- C1 witness: a concrete launch failure is converted to the
launch_failed record. -/
theorem c1_caught_failure_paths_witness :
    (run_single_simulation
      { pathExists := fun _ => true, raiseAt := some 0, getValueResult := Val.num 500,
        elemCount := 1, now := "t1", cwd := "c" } 2 [] "base" "imgs").1 =
      Outcome.ret ⟨none, Val.nan, "launch_failed", "t1"⟩ :=
  (c1_caught_failure_paths
    { pathExists := fun _ => true, raiseAt := some 0, getValueResult := Val.num 500,
      elemCount := 1, now := "t1", cwd := "c" } 2 [] "base" "imgs" 0 0 0).1 rfl

/-- C2: the claim says every return path populates all four record
fields.  Counterexample: the early launch-failure return (line 30)
omits the run_id key even with a fully populated params dict. -/
theorem c2_launch_record_lacks_run_id :
    (run_single_simulation
      { pathExists := fun _ => true, raiseAt := some 0, getValueResult := Val.num 500,
        elemCount := 1, now := "ts", cwd := "c" } 7
      [("vane_count", 1), ("vane_thickness_deg", 2), ("heat_flux", 5)] "base" "imgs").1
      = Outcome.ret { run_id := none, peak_temp := Val.nan, status := "launch_failed",
                      timestamp := "ts" } := rfl

/-- C2 (amended): every returned record has peak_temp, status and
timestamp populated with status drawn from the three-value set, and
run_id is populated exactly on the non-launch-failure return; the
launch-failure record omits run_id. -/
theorem c2_record_fields (env : Env) (rid : ℕ) (p : PyDict) (b i : String)
    (r : ResultRecord) (h : (run_single_simulation env rid p b i).1 = .ret r) :
    (r.status = "launch_failed" ∨ r.status = "post_processing_failed" ∨
      r.status = "success") ∧
    (r.run_id = none ↔ r.status = "launch_failed") ∧
    (r.status ≠ "launch_failed" → r.run_id = some rid) := by
  rcases run_fst_ret_cases h with h1 | ⟨peak, h1⟩
  · subst h1
    exact ⟨Or.inl rfl, by simp, fun hc => absurd rfl hc⟩
  · subst h1
    cases peak <;> simp [np_isnan]

/-- C2 witness: the launch-failure record at a concrete input has
status launch_failed and no run_id. -/
theorem c2_record_fields_witness :
    ((⟨none, Val.nan, "launch_failed", "ts"⟩ : ResultRecord).status = "launch_failed" ∨
     (⟨none, Val.nan, "launch_failed", "ts"⟩ : ResultRecord).status = "post_processing_failed" ∨
     (⟨none, Val.nan, "launch_failed", "ts"⟩ : ResultRecord).status = "success") ∧
    ((⟨none, Val.nan, "launch_failed", "ts"⟩ : ResultRecord).run_id = none ↔
     (⟨none, Val.nan, "launch_failed", "ts"⟩ : ResultRecord).status = "launch_failed") :=
  let h := c2_record_fields
    { pathExists := fun _ => true, raiseAt := some 0, getValueResult := Val.num 500,
      elemCount := 1, now := "ts", cwd := "c" } 7
    [("vane_count", 1), ("vane_thickness_deg", 2), ("heat_flux", 5)] "base" "imgs"
    ⟨none, Val.nan, "launch_failed", "ts"⟩ rfl
  ⟨h.1, h.2.1⟩

/-- C4: the claim says the solver is shut down on every exit path past
launch, including model-construction and solve failures.
Counterexample: with the first model-construction call (mapdl.clear,
call index 1) raising, the exception propagates and no mapdl.exit call
appears on the trace — the solver process is left running. -/
theorem c4_model_failure_skips_shutdown :
    (run_single_simulation
      { pathExists := fun _ => true, raiseAt := some 1, getValueResult := Val.num 500,
        elemCount := 1, now := "ts", cwd := "c" } 4
      [("vane_count", 1), ("vane_thickness_deg", 2), ("heat_flux", 5)] "base" "imgs").1
      = Outcome.raised (Exc.externalError 1) ∧
    Cmd.exit_ ∉ (run_single_simulation
      { pathExists := fun _ => true, raiseAt := some 1, getValueResult := Val.num 500,
        elemCount := 1, now := "ts", cwd := "c" } 4
      [("vane_count", 1), ("vane_thickness_deg", 2), ("heat_flux", 5)] "base" "imgs").2 := by
  constructor
  · rfl
  · decide

/-- C4 (amended): on every path on which the driver returns a record
other than the launch-failure one — which includes every caught
post-processing or rendering failure — the solver shutdown call is on
the trace; if a model-construction, solve, result-state-load or
shutdown call raises, the exception propagates instead. -/
theorem c4_shutdown_on_normal_return (env : Env) (rid : ℕ) (p : PyDict) (b i : String)
    (r : ResultRecord) (t : Trace)
    (h : run_single_simulation env rid p b i = (.ret r, t))
    (hs : r.status ≠ "launch_failed") :
    Cmd.exit_ ∈ t := by
  rcases run_ret_cases h with h1 | ⟨peak, _, hmem⟩
  · exact absurd (by rw [h1]) hs
  · exact hmem

set_option maxRecDepth 4000 in
/-- C4 witness: a concrete fully successful run has the shutdown call
on its trace. -/
theorem c4_shutdown_on_normal_return_witness :
    Cmd.exit_ ∈ (run_single_simulation
      { pathExists := fun _ => true, raiseAt := none, getValueResult := Val.num 500,
        elemCount := 1, now := "ts", cwd := "c" } 3
      [("vane_count", 1), ("vane_thickness_deg", 2), ("heat_flux", 5)] "b" "i").2 := by
  have h1 : (run_single_simulation
      { pathExists := fun _ => true, raiseAt := none, getValueResult := Val.num 500,
        elemCount := 1, now := "ts", cwd := "c" } 3
      [("vane_count", 1), ("vane_thickness_deg", 2), ("heat_flux", 5)] "b" "i").1 =
      Outcome.ret ⟨some 3, Val.num 500, "success", "ts"⟩ := rfl
  have h : run_single_simulation
      { pathExists := fun _ => true, raiseAt := none, getValueResult := Val.num 500,
        elemCount := 1, now := "ts", cwd := "c" } 3
      [("vane_count", 1), ("vane_thickness_deg", 2), ("heat_flux", 5)] "b" "i" =
      (Outcome.ret ⟨some 3, Val.num 500, "success", "ts"⟩,
       (run_single_simulation
        { pathExists := fun _ => true, raiseAt := none, getValueResult := Val.num 500,
          elemCount := 1, now := "ts", cwd := "c" } 3
        [("vane_count", 1), ("vane_thickness_deg", 2), ("heat_flux", 5)] "b" "i").2) := by
    rw [← h1]
  exact c4_shutdown_on_normal_return _ 3 _ "b" "i" _ _ h (by decide)

/-- C6: if the solver launch raises, the driver returns at once with
the launch_failed record and nan peak, for every parameter set, and
the trace holds nothing beyond the directory creation and the launch
attempt — no model-construction or solve command is issued. -/
theorem c6_launch_failed_immediate (env : Env) (rid : ℕ) (p : PyDict) (b i : String)
    (hl : env.raiseAt = some (if env.pathExists (simulation_path b rid) = true then 0 else 1)) :
    (run_single_simulation env rid p b i).1 =
      .ret ⟨none, Val.nan, "launch_failed", env.now⟩ ∧
    ∀ c ∈ (run_single_simulation env rid p b i).2,
      c = Cmd.makedirs (simulation_path b rid) ∨
      c = Cmd.launch (simulation_path b rid) "disc_model" := by
  have h := @run_launch_fail env rid p b i hl
  constructor
  · rw [h]
  · intro c hc
    rw [h] at hc
    by_cases hpe : env.pathExists (simulation_path b rid) = true
    · simp [hpe] at hc
      exact Or.inr hc
    · simp [hpe] at hc
      rcases hc with hc | hc
      · exact Or.inl hc
      · exact Or.inr hc

/-- C6 witness: a concrete run whose launch raises returns the
launch_failed record. -/
theorem c6_launch_failed_immediate_witness :
    (run_single_simulation
      { pathExists := fun _ => true, raiseAt := some 0, getValueResult := Val.num 500,
        elemCount := 1, now := "t6", cwd := "c" } 9 [] "bb" "ii").1 =
      Outcome.ret ⟨none, Val.nan, "launch_failed", "t6"⟩ :=
  (c6_launch_failed_immediate
    { pathExists := fun _ => true, raiseAt := some 0, getValueResult := Val.num 500,
      elemCount := 1, now := "t6", cwd := "c" } 9 [] "bb" "ii" rfl).1

set_option maxRecDepth 4000 in
/-- C3 counterexample: with the temperature-plot call (index 61)
raising after the extraction already returned 500, the returned record
has status success and the extracted peak — not post_processing_failed
with nan as the claim requires for any post-processing exception. -/
theorem c3_plot_failure_keeps_success :
    (run_single_simulation
      { pathExists := fun _ => true, raiseAt := some 61, getValueResult := Val.num 500,
        elemCount := 1, now := "ts", cwd := "c" } 3
      [("vane_count", 1), ("vane_thickness_deg", 2), ("heat_flux", 5)] "b" "i").1 =
      Outcome.ret ⟨some 3, Val.num 500, "success", "ts"⟩ ∧
    (run_single_simulation
      { pathExists := fun _ => true, raiseAt := some 61, getValueResult := Val.num 500,
        elemCount := 1, now := "ts", cwd := "c" } 3
      [("vane_count", 1), ("vane_thickness_deg", 2), ("heat_flux", 5)] "b" "i").2[61]? =
      some (Cmd.plotNodalTemperature (output_png_path "i" 3)) := by
  constructor
  · rfl
  · rfl

set_option maxRecDepth 4000 in
/-- C3 witness: a concrete raise in the sort step yields the
post_processing_failed record with nan peak. -/
theorem c3_guarded_post_processing_witness :
    (run_single_simulation
      { pathExists := fun _ => true, raiseAt := some 59, getValueResult := Val.num 500,
        elemCount := 1, now := "tw", cwd := "c" } 2
      [("vane_count", 1), ("vane_thickness_deg", 2), ("heat_flux", 5)] "b" "i").1 =
      Outcome.ret ⟨some 2, Val.nan, "post_processing_failed", "tw"⟩ :=
  ((c3_guarded_post_processing
      { pathExists := fun _ => true, raiseAt := some 59, getValueResult := Val.num 500,
        elemCount := 1, now := "tw", cwd := "c" } 2
      [("vane_count", 1), ("vane_thickness_deg", 2), ("heat_flux", 5)] "b" "i"
      2 5 0 rfl rfl rfl rfl).2.1) rfl

/-- C7: a failure of either best-effort render never alters the
returned status: with all parameter keys present, the run directory
existing, and every other call succeeding, failing the geometry plot
(call index 16 + 11 vane_count) or the temperature plot (index 50 +
11 vane_count) returns a record identical to the fully successful one. -/
theorem c7_render_failure_status (env : Env) (rid : ℕ) (p : PyDict) (b i : String)
    (vc td hf : ℚ) (nv : ℕ)
    (hvc : dictGet p "vane_count" = some vc)
    (htd : dictGet p "vane_thickness_deg" = some td)
    (hhf : dictGet p "heat_flux" = some hf)
    (hnv : Int.toNat ⌊vc⌋ = nv)
    (hpe : env.pathExists (simulation_path b rid) = true)
    (hr : env.raiseAt = none) :
    (run_single_simulation env rid p b i).1 =
      .ret ⟨some rid, env.getValueResult,
        if np_isnan env.getValueResult then "post_processing_failed" else "success",
        env.now⟩ ∧
    (run_single_simulation { env with raiseAt := some (16 + 11 * nv) } rid p b i).1 =
      (run_single_simulation env rid p b i).1 ∧
    (run_single_simulation { env with raiseAt := some (50 + 11 * nv) } rid p b i).1 =
      (run_single_simulation env rid p b i).1 := by
  have hbase := @run_no_raise env rid p b i vc td hf hvc htd hhf hr
  refine ⟨hbase, ?_, ?_⟩
  · rw [@run_eplot_raise { env with raiseAt := some (16 + 11 * nv) } rid p b i vc td hf nv
      hvc htd hhf hnv hpe rfl, hbase]
  · rw [@run_plot_raise { env with raiseAt := some (50 + 11 * nv) } rid p b i vc td hf nv
      hvc htd hhf hnv hpe rfl, hbase]

set_option maxRecDepth 4000 in
/-- C7 witness: concrete renders of both plots failing (vane count 2,
so call indices 38 and 72) return the same record as the fully
successful run. -/
theorem c7_render_failure_status_witness :
    (run_single_simulation
      { pathExists := fun _ => true, raiseAt := none, getValueResult := Val.num 600,
        elemCount := 1, now := "tw", cwd := "c" } 4
      [("vane_count", 2), ("vane_thickness_deg", 3), ("heat_flux", 7)] "b" "i").1 =
      Outcome.ret ⟨some 4, Val.num 600, "success", "tw"⟩ ∧
    (run_single_simulation
      { pathExists := fun _ => true, raiseAt := some 38, getValueResult := Val.num 600,
        elemCount := 1, now := "tw", cwd := "c" } 4
      [("vane_count", 2), ("vane_thickness_deg", 3), ("heat_flux", 7)] "b" "i").1 =
      (run_single_simulation
      { pathExists := fun _ => true, raiseAt := none, getValueResult := Val.num 600,
        elemCount := 1, now := "tw", cwd := "c" } 4
      [("vane_count", 2), ("vane_thickness_deg", 3), ("heat_flux", 7)] "b" "i").1 ∧
    (run_single_simulation
      { pathExists := fun _ => true, raiseAt := some 72, getValueResult := Val.num 600,
        elemCount := 1, now := "tw", cwd := "c" } 4
      [("vane_count", 2), ("vane_thickness_deg", 3), ("heat_flux", 7)] "b" "i").1 =
      (run_single_simulation
      { pathExists := fun _ => true, raiseAt := none, getValueResult := Val.num 600,
        elemCount := 1, now := "tw", cwd := "c" } 4
      [("vane_count", 2), ("vane_thickness_deg", 3), ("heat_flux", 7)] "b" "i").1 :=
  c7_render_failure_status
    { pathExists := fun _ => true, raiseAt := none, getValueResult := Val.num 600,
      elemCount := 1, now := "tw", cwd := "c" } 4
    [("vane_count", 2), ("vane_thickness_deg", 3), ("heat_flux", 7)] "b" "i"
    2 3 7 2 rfl rfl rfl rfl rfl rfl

/-- C8: the run-id-to-path mapping is deterministic, and distinct run
ids give a distinct working directory and distinct input- and
output-image filenames; input and output filenames never collide with
each other either. -/
theorem c8_path_mapping (b i : String) (r1 r2 : ℕ) :
    (r1 = r2 →
      simulation_path b r1 = simulation_path b r2 ∧
      input_png_path i r1 = input_png_path i r2 ∧
      output_png_path i r1 = output_png_path i r2) ∧
    (r1 ≠ r2 →
      simulation_path b r1 ≠ simulation_path b r2 ∧
      input_png_path i r1 ≠ input_png_path i r2 ∧
      output_png_path i r1 ≠ output_png_path i r2) ∧
    input_png_path i r1 ≠ output_png_path i r2 := by
  refine ⟨?_, ?_, input_png_path_ne_output i i r1 r2 rfl⟩
  · intro h
    subst h
    exact ⟨rfl, rfl, rfl⟩
  · intro hne
    exact ⟨fun hc => hne (simulation_path_inj hc), fun hc => hne (input_png_path_inj hc),
      fun hc => hne (output_png_path_inj hc)⟩

/-- C8 witness: run ids 1 and 2 give distinct directories and distinct
image filenames. -/
theorem c8_path_mapping_witness :
    simulation_path "runs" 1 ≠ simulation_path "runs" 2 ∧
    input_png_path "imgs" 1 ≠ input_png_path "imgs" 2 ∧
    output_png_path "imgs" 1 ≠ output_png_path "imgs" 2 :=
  (c8_path_mapping "runs" "imgs" 1 2).2.1 (by decide)

/-- C9: every returned record satisfies status = success iff peak_temp
is not the nan sentinel; moreover when no call raises but the extracted
maximum itself is nan, the returned record is the
post_processing_failed one even though no exception occurred. -/
theorem c9_success_iff_not_nan (env : Env) (rid : ℕ) (p : PyDict) (b i : String)
    (r : ResultRecord) (h : (run_single_simulation env rid p b i).1 = .ret r) :
    (r.status = "success" ↔ r.peak_temp ≠ Val.nan) ∧
    (env.raiseAt = none → env.getValueResult = Val.nan →
      r = ⟨some rid, Val.nan, "post_processing_failed", env.now⟩) := by
  constructor
  · rcases run_fst_ret_cases h with h1 | ⟨peak, h1⟩
    · subst h1
      simp
    · subst h1
      cases peak <;> simp [np_isnan]
  · intro hr hnan
    rcases hvc : dictGet p "vane_count" with _ | vc
    · have h2 := @run_missing_vane env rid p b i hr hvc
      have h3 : (run_single_simulation env rid p b i).1 = .raised (.keyError "vane_count") := by
        rw [h2]
      rw [h3] at h
      simp at h
    · rcases htd : dictGet p "vane_thickness_deg" with _ | td
      · have h2 := @run_missing_thickness env rid p b i vc hr hvc htd
        have h3 : (run_single_simulation env rid p b i).1 =
            .raised (.keyError "vane_thickness_deg") := by
          rw [h2]
        rw [h3] at h
        simp at h
      · rcases hhf : dictGet p "heat_flux" with _ | hf
        · have h2 := @run_missing_flux env rid p b i vc td hr hvc htd hhf
          have h3 : (run_single_simulation env rid p b i).1 =
              .raised (.keyError "heat_flux") := by
            rw [h2]
          rw [h3] at h
          simp at h
        · have h4 := @run_no_raise env rid p b i vc td hf hvc htd hhf hr
          rw [hnan] at h4
          simp only [np_isnan, if_true] at h4
          rw [h4] at h
          injection h with h5
          exact h5.symm

set_option maxRecDepth 4000 in
/-- C9 witness: a concrete run extracting nan without any exception
returns the post_processing_failed record, and satisfies the
success-iff-not-nan invariant. -/
theorem c9_success_iff_not_nan_witness :
    ((⟨some 5, Val.nan, "post_processing_failed", "ts"⟩ : ResultRecord).status = "success" ↔
     (⟨some 5, Val.nan, "post_processing_failed", "ts"⟩ : ResultRecord).peak_temp ≠ Val.nan) ∧
    (⟨some 5, Val.nan, "post_processing_failed", "ts"⟩ : ResultRecord) =
      ⟨some 5, Val.nan, "post_processing_failed", "ts"⟩ := by
  have h := c9_success_iff_not_nan
    { pathExists := fun _ => true, raiseAt := none, getValueResult := Val.nan,
      elemCount := 1, now := "ts", cwd := "c" } 5
    [("vane_count", 1), ("vane_thickness_deg", 2), ("heat_flux", 5)] "b" "i"
    ⟨some 5, Val.nan, "post_processing_failed", "ts"⟩ rfl
  exact ⟨h.1, h.2 rfl rfl⟩

/-- C10: a params dict missing vane_count, vane_thickness_deg or
heat_flux makes the driver raise a KeyError naming that key, and only
after the solver launch already happened (the launch call is on the
trace); when the launch itself fails the driver instead returns the
launch_failed record and no KeyError can occur. -/
theorem c10_missing_key (env : Env) (rid : ℕ) (p : PyDict) (b i : String) :
    (env.raiseAt = none → dictGet p "vane_count" = none →
      (run_single_simulation env rid p b i).1 = .raised (.keyError "vane_count") ∧
      Cmd.launch (simulation_path b rid) "disc_model" ∈
        (run_single_simulation env rid p b i).2) ∧
    (env.raiseAt = none → ∀ vc : ℚ, dictGet p "vane_count" = some vc →
      dictGet p "vane_thickness_deg" = none →
      (run_single_simulation env rid p b i).1 = .raised (.keyError "vane_thickness_deg") ∧
      Cmd.launch (simulation_path b rid) "disc_model" ∈
        (run_single_simulation env rid p b i).2) ∧
    (env.raiseAt = none → ∀ vc td : ℚ, dictGet p "vane_count" = some vc →
      dictGet p "vane_thickness_deg" = some td → dictGet p "heat_flux" = none →
      (run_single_simulation env rid p b i).1 = .raised (.keyError "heat_flux") ∧
      Cmd.launch (simulation_path b rid) "disc_model" ∈
        (run_single_simulation env rid p b i).2) ∧
    (env.raiseAt = some (if env.pathExists (simulation_path b rid) = true then 0 else 1) →
      (run_single_simulation env rid p b i).1 =
        .ret ⟨none, Val.nan, "launch_failed", env.now⟩) := by
  refine ⟨?_, ?_, ?_, ?_⟩
  · intro hr h1
    have h := @run_missing_vane env rid p b i hr h1
    refine ⟨by rw [h], ?_⟩
    rw [h]
    simp
  · intro hr vc h1 h2
    have h := @run_missing_thickness env rid p b i vc hr h1 h2
    refine ⟨by rw [h], ?_⟩
    rw [h]
    simp
  · intro hr vc td h1 h2 h3
    have h := @run_missing_flux env rid p b i vc td hr h1 h2 h3
    refine ⟨by rw [h], ?_⟩
    rw [h]
    simp
  · intro hl
    rw [run_launch_fail p hl]

/-- C10 witness: an empty params dict with a successful launch raises
KeyError on vane_count, after the launch call. -/
theorem c10_missing_key_witness :
    (run_single_simulation
      { pathExists := fun _ => true, raiseAt := none, getValueResult := Val.num 500,
        elemCount := 1, now := "ts", cwd := "c" } 1 [] "b" "i").1 =
      Outcome.raised (Exc.keyError "vane_count") ∧
    Cmd.launch (simulation_path "b" 1) "disc_model" ∈
      (run_single_simulation
        { pathExists := fun _ => true, raiseAt := none, getValueResult := Val.num 500,
          elemCount := 1, now := "ts", cwd := "c" } 1 [] "b" "i").2 :=
  (c10_missing_key
    { pathExists := fun _ => true, raiseAt := none, getValueResult := Val.num 500,
      elemCount := 1, now := "ts", cwd := "c" } 1 [] "b" "i").1 rfl rfl

set_option maxRecDepth 8000 in
/-- C5: evidence for the code bug.  In the single-instance test script
with zero elements selected for the heat flux (and every external call
succeeding), the guard prints its FATAL message and calls mapdl.exit,
but the script then FALLS THROUGH: the heat-flux command (mapdl.sfe)
and the whole remainder of the script are still issued after the
guard-issued exit call, and the script runs to its end instead of
aborting — contradicting both the claim and the comments of the guard
itself.  In the reusable driver no element-count guard exists at all:
a fully successful run issues the heat-flux command and never issues
an element-count query. -/
theorem c5_zero_selection_continues :
    ((single_instance_script
        { pathExists := fun _ => true, raiseAt := none, getValueResult := Val.num 500,
          elemCount := 0, now := "ts", cwd := "c" }).1 = ScriptOutcome.finished ∧
      (((single_instance_script
        { pathExists := fun _ => true, raiseAt := none, getValueResult := Val.num 500,
          elemCount := 0, now := "ts", cwd := "c" }).2.dropWhile
            (fun c => c != Cmd.exit_)).contains (Cmd.sfe single_heat_flux)) = true) ∧
    Cmd.sfe 5 ∈ (run_single_simulation
        { pathExists := fun _ => true, raiseAt := none, getValueResult := Val.num 500,
          elemCount := 5, now := "ts", cwd := "c" } 1
        [("vane_count", 1), ("vane_thickness_deg", 2), ("heat_flux", 5)] "b" "i").2 ∧
    Cmd.getValueElemCount ∉ (run_single_simulation
        { pathExists := fun _ => true, raiseAt := none, getValueResult := Val.num 500,
          elemCount := 5, now := "ts", cwd := "c" } 1
        [("vane_count", 1), ("vane_thickness_deg", 2), ("heat_flux", 5)] "b" "i").2 := by
  refine ⟨⟨?_, ?_⟩, ?_, ?_⟩ <;> decide
